import Mathlib

/-!
Shallow embedding of the TinyTCP connection-management core
(`internal/packet` and `internal/tcp`) and proofs about the
specification's claims.

Conventions of the embedding:
* `uint32` fields are `Nat` values; every operation the Go code performs
  with wrapping 32-bit arithmetic is written with an explicit `% mod32`.
* `int` / `time.Duration` / instants of `time.Time` are `Int`
  (nanoseconds); `time.Now()` becomes an explicit `now` parameter.
* byte slices are `List Nat`.
* `crypto/rand`-generated ISNs become explicit `isn` parameters.
* pointer-mutating methods become state-passing functions
  `TCB → args → TCB × Except TCPError output`; on an error path the Go
  code returns before mutating, so the returned `TCB` is the input.
* the queue mutex is dropped (single-threaded semantics).
-/

/-- Modulus of 32-bit unsigned arithmetic. -/
def mod32 : Nat := 4294967296

/-- TCP header structure, from `internal/packet`: ports, sequence and
acknowledgment numbers, offset, flags, window, checksum, urgent pointer. -/
structure TCPHeader where
  sourcePort : Nat
  destinationPort : Nat
  sequenceNumber : Nat
  ackNumber : Nat
  dataOffset : Nat
  reserved : Nat
  flags : Nat
  windowSize : Nat
  checksum : Nat
  urgentPointer : Nat
deriving Repr, DecidableEq

/-- `FlagFIN = 1 << 0`. -/
def flagFIN : Nat := 1
/-- `FlagSYN = 1 << 1`. -/
def flagSYN : Nat := 2
/-- `FlagRST = 1 << 2`. -/
def flagRST : Nat := 4
/-- `FlagPSH = 1 << 3`. -/
def flagPSH : Nat := 8
/-- `FlagACK = 1 << 4`. -/
def flagACK : Nat := 16
/-- `FlagURG = 1 << 5`. -/
def flagURG : Nat := 32

/-- `NewTCPHeader`: defaults are `DataOffset = 5`, `WindowSize = 65535`,
all other fields zero apart from the two ports. -/
def newTCPHeader (srcPort dstPort : Nat) : TCPHeader :=
  { sourcePort := srcPort
    destinationPort := dstPort
    sequenceNumber := 0
    ackNumber := 0
    dataOffset := 5
    reserved := 0
    flags := 0
    windowSize := 65535
    checksum := 0
    urgentPointer := 0 }

/-- `SetFlag`: `h.Flags |= flag`. -/
def setFlag (h : TCPHeader) (flag : Nat) : TCPHeader :=
  { h with flags := h.flags ||| flag }

/-- `HasFlag`: `h.Flags & flag != 0`. -/
def hasFlag (h : TCPHeader) (flag : Nat) : Bool :=
  h.flags &&& flag != 0

/-- Socket states, from `internal/socket`. -/
inductive SocketState where
  | closed
  | listen
  | synSent
  | synReceived
  | established
  | finWait1
  | finWait2
  | closeWait
  | closing
  | lastAck
  | timeWait
deriving Repr, DecidableEq

/-- The error taxonomy of the specification; each constructor corresponds
to one family of error returns in `internal/tcp/tcp.go`. -/
inductive TCPError where
  | invalidState
  | invalidSequenceNumber
  | invalidAckNumber
  | outOfOrderPacket
  | emptyPayload
  | unexpectedFin
  | unexpectedAck
deriving Repr, DecidableEq

/-- `RetransmissionEntry`: header, payload, send instant, attempt count. -/
structure RetransmissionEntry where
  header : TCPHeader
  data : List Nat
  sentTime : Int
  attempts : Int
deriving Repr, DecidableEq

/-- `RetransmissionQueue.Add`: append an entry with `Attempts = 1` and
`SentTime = now`. -/
def rqAdd (q : List RetransmissionEntry) (header : TCPHeader)
    (data : List Nat) (now : Int) : List RetransmissionEntry :=
  q ++ [{ header := header, data := data, sentTime := now, attempts := 1 }]

/-- End of an entry's sequence span, as computed inside
`RetransmissionQueue.Remove`: `SequenceNumber + uint32(len(Data))`,
plus one more when the SYN or the FIN flag is set, in wrapping
32-bit arithmetic. -/
def seqEnd (e : RetransmissionEntry) : Nat :=
  let s := (e.header.sequenceNumber + e.data.length % mod32) % mod32
  if hasFlag e.header flagSYN || hasFlag e.header flagFIN then
    (s + 1) % mod32
  else s

/-- `RetransmissionQueue.Remove`: rebuild the queue keeping exactly the
entries with `ackNumber < seqEnd`. -/
def rqRemove (ackNumber : Nat) :
    List RetransmissionEntry → List RetransmissionEntry
  | [] => []
  | e :: rest =>
    if ackNumber < seqEnd e then e :: rqRemove ackNumber rest
    else rqRemove ackNumber rest

/-- The in-place update `GetTimeoutEntries` applies to a timed-out entry:
`SentTime = now`, `Attempts++`. -/
def touchEntry (now : Int) (e : RetransmissionEntry) : RetransmissionEntry :=
  { e with sentTime := now, attempts := e.attempts + 1 }

/-- `RetransmissionQueue.GetTimeoutEntries`: scan the queue; every entry
whose age exceeds `timeout` and whose attempt count is below
`maxAttempts` is updated in place and a snapshot of the updated entry is
appended to the result. Returns (result, updated queue). -/
def rqGetTimeoutEntries (now timeout : Int) (maxAttempts : Int) :
    List RetransmissionEntry →
      List RetransmissionEntry × List RetransmissionEntry
  | [] => ([], [])
  | e :: rest =>
    let r := rqGetTimeoutEntries now timeout maxAttempts rest
    if now - e.sentTime > timeout ∧ e.attempts < maxAttempts then
      (touchEntry now e :: r.1, touchEntry now e :: r.2)
    else (r.1, e :: r.2)

/-- `TCB`: the connection control block. Addresses are reduced to the
port components the core reads. -/
structure TCB where
  localPort : Nat
  remotePort : Nat
  sendNext : Nat
  sendUnack : Nat
  recvNext : Nat
  recvWindow : Nat
  state : SocketState
  sendBuffer : List Nat
  recvBuffer : List Nat
  retransmissionQueue : List RetransmissionEntry
  retransmissionTimeout : Int
  maxRetransmissionAttempts : Int
deriving Repr, DecidableEq

/-- `NewTCB`: state CLOSED, window 65535, timeout 1s (in nanoseconds),
3 attempts, everything else zero or empty. -/
def newTCB (localPort remotePort : Nat) : TCB :=
  { localPort := localPort
    remotePort := remotePort
    sendNext := 0
    sendUnack := 0
    recvNext := 0
    recvWindow := 65535
    state := .closed
    sendBuffer := []
    recvBuffer := []
    retransmissionQueue := []
    retransmissionTimeout := 1000000000
    maxRetransmissionAttempts := 3 }

/-- `ThreeWayHandshake.StartClient`: requires CLOSED; sets
`SendNext = isn + 1`, `SendUnack = isn`; builds a SYN header with
`SequenceNumber = isn`; enqueues it for retransmission; moves to
SYN_SENT. -/
def startClient (tcb : TCB) (isn : Nat) (now : Int) :
    TCB × Except TCPError TCPHeader :=
  if tcb.state ≠ .closed then (tcb, .error .invalidState) else
  let synHeader :=
    { newTCPHeader tcb.localPort tcb.remotePort with
        sequenceNumber := isn
        flags := 0 ||| flagSYN
        windowSize := tcb.recvWindow }
  ({ tcb with
      sendNext := (isn + 1) % mod32
      sendUnack := isn
      retransmissionQueue := rqAdd tcb.retransmissionQueue synHeader [] now
      state := .synSent },
   .ok synHeader)

/-- `ThreeWayHandshake.HandleSyn`: requires LISTEN; sets
`RecvNext = syn.SequenceNumber + 1`; picks its own ISN; builds a SYN-ACK
with `SequenceNumber = isn`, `AckNumber = RecvNext`; moves to
SYN_RECEIVED. The SYN-ACK is not enqueued for retransmission. -/
def handleSyn (tcb : TCB) (synHeader : TCPHeader) (isn : Nat) :
    TCB × Except TCPError TCPHeader :=
  if tcb.state ≠ .listen then (tcb, .error .invalidState) else
  let recvNext := (synHeader.sequenceNumber + 1) % mod32
  let synAckHeader :=
    { newTCPHeader tcb.localPort tcb.remotePort with
        sequenceNumber := isn
        ackNumber := recvNext
        flags := 0 ||| (flagSYN ||| flagACK)
        windowSize := tcb.recvWindow }
  ({ tcb with
      recvNext := recvNext
      sendNext := (isn + 1) % mod32
      sendUnack := isn
      state := .synReceived },
   .ok synAckHeader)

/-- `ThreeWayHandshake.HandleSynAck`: requires SYN_SENT; requires
`AckNumber = SendNext`; sets `RecvNext = seq + 1`; builds the final ACK;
prunes the retransmission queue with the incoming ack number; moves to
ESTABLISHED. -/
def handleSynAck (tcb : TCB) (synAckHeader : TCPHeader) :
    TCB × Except TCPError TCPHeader :=
  if tcb.state ≠ .synSent then (tcb, .error .invalidState) else
  if synAckHeader.ackNumber ≠ tcb.sendNext then
    (tcb, .error .invalidAckNumber) else
  let recvNext := (synAckHeader.sequenceNumber + 1) % mod32
  let ackHeader :=
    { newTCPHeader tcb.localPort tcb.remotePort with
        sequenceNumber := tcb.sendNext
        ackNumber := recvNext
        flags := 0 ||| flagACK
        windowSize := tcb.recvWindow }
  ({ tcb with
      recvNext := recvNext
      retransmissionQueue :=
        rqRemove synAckHeader.ackNumber tcb.retransmissionQueue
      state := .established },
   .ok ackHeader)

/-- `ThreeWayHandshake.HandleAck`: requires SYN_RECEIVED; requires
`AckNumber = SendNext` and `SequenceNumber = RecvNext`; prunes the
queue; moves to ESTABLISHED. -/
def handleAck (tcb : TCB) (ackHeader : TCPHeader) :
    TCB × Except TCPError Unit :=
  if tcb.state ≠ .synReceived then (tcb, .error .invalidState) else
  if ackHeader.ackNumber ≠ tcb.sendNext then
    (tcb, .error .invalidAckNumber) else
  if ackHeader.sequenceNumber ≠ tcb.recvNext then
    (tcb, .error .invalidSequenceNumber) else
  ({ tcb with
      retransmissionQueue :=
        rqRemove ackHeader.ackNumber tcb.retransmissionQueue
      state := .established },
   .ok ())

/-- `DataTransfer.Send`: requires ESTABLISHED and nonempty data; builds
a header (`seq = SendNext`, `ack = RecvNext`, flags `ACK|PSH`); appends
the data to the send buffer; enqueues (header, data) for
retransmission; advances `SendNext` by `uint32(len(data))`. -/
def send (tcb : TCB) (data : List Nat) (now : Int) :
    TCB × Except TCPError TCPHeader :=
  if tcb.state ≠ .established then (tcb, .error .invalidState) else
  if data.length = 0 then (tcb, .error .emptyPayload) else
  let header :=
    { newTCPHeader tcb.localPort tcb.remotePort with
        sequenceNumber := tcb.sendNext
        ackNumber := tcb.recvNext
        flags := 0 ||| (flagACK ||| flagPSH)
        windowSize := tcb.recvWindow }
  ({ tcb with
      sendBuffer := tcb.sendBuffer ++ data
      retransmissionQueue := rqAdd tcb.retransmissionQueue header data now
      sendNext := (tcb.sendNext + data.length % mod32) % mod32 },
   .ok header)

/-- `DataTransfer.Receive`: requires ESTABLISHED; requires
`SequenceNumber = RecvNext`; appends the data to the receive buffer;
advances `RecvNext` by `uint32(len(data))`; returns the data and an ACK
header (`seq = SendNext`, `ack = new RecvNext`). -/
def receive (tcb : TCB) (header : TCPHeader) (data : List Nat) :
    TCB × Except TCPError (List Nat × TCPHeader) :=
  if tcb.state ≠ .established then (tcb, .error .invalidState) else
  if header.sequenceNumber ≠ tcb.recvNext then
    (tcb, .error .outOfOrderPacket) else
  let recvNext := (tcb.recvNext + data.length % mod32) % mod32
  let ackHeader :=
    { newTCPHeader tcb.localPort tcb.remotePort with
        sequenceNumber := tcb.sendNext
        ackNumber := recvNext
        flags := 0 ||| flagACK
        windowSize := tcb.recvWindow }
  ({ tcb with
      recvBuffer := tcb.recvBuffer ++ data
      recvNext := recvNext },
   .ok (data, ackHeader))

/-- `DataTransfer.ReceiveAck`: requires ESTABLISHED; requires
`SendUnack ≤ AckNumber ≤ SendNext` (plain 32-bit comparisons); sets
`SendUnack = AckNumber`; prunes the retransmission queue. -/
def receiveAck (tcb : TCB) (header : TCPHeader) :
    TCB × Except TCPError Unit :=
  if tcb.state ≠ .established then (tcb, .error .invalidState) else
  if header.ackNumber < tcb.sendUnack ∨ header.ackNumber > tcb.sendNext then
    (tcb, .error .invalidAckNumber) else
  ({ tcb with
      sendUnack := header.ackNumber
      retransmissionQueue :=
        rqRemove header.ackNumber tcb.retransmissionQueue },
   .ok ())

/-- `DataTransfer.CheckRetransmissions`: delegate to the queue scan with
the configured timeout and attempt limit. -/
def checkRetransmissions (tcb : TCB) (now : Int) :
    TCB × List RetransmissionEntry :=
  let r := rqGetTimeoutEntries now tcb.retransmissionTimeout
    tcb.maxRetransmissionAttempts tcb.retransmissionQueue
  ({ tcb with retransmissionQueue := r.2 }, r.1)

/-- `FourWayHandshake.Close`: requires ESTABLISHED; builds a FIN+ACK
header (`seq = SendNext`, `ack = RecvNext`); enqueues it; advances
`SendNext` by one; moves to FIN_WAIT_1. -/
def close (tcb : TCB) (now : Int) : TCB × Except TCPError TCPHeader :=
  if tcb.state ≠ .established then (tcb, .error .invalidState) else
  let finHeader :=
    { newTCPHeader tcb.localPort tcb.remotePort with
        sequenceNumber := tcb.sendNext
        ackNumber := tcb.recvNext
        flags := 0 ||| (flagFIN ||| flagACK)
        windowSize := tcb.recvWindow }
  ({ tcb with
      retransmissionQueue := rqAdd tcb.retransmissionQueue finHeader [] now
      sendNext := (tcb.sendNext + 1) % mod32
      state := .finWait1 },
   .ok finHeader)

/-- `FourWayHandshake.HandleFin`: allowed in ESTABLISHED, FIN_WAIT_1,
FIN_WAIT_2; requires `SequenceNumber = RecvNext`; advances `RecvNext`
by one; returns an ACK (`seq = SendNext`, `ack = new RecvNext`);
transitions ESTABLISHED→CLOSE_WAIT, FIN_WAIT_1→CLOSING,
FIN_WAIT_2→TIME_WAIT. -/
def handleFin (tcb : TCB) (finHeader : TCPHeader) :
    TCB × Except TCPError TCPHeader :=
  if tcb.state ≠ .established ∧ tcb.state ≠ .finWait1 ∧
      tcb.state ≠ .finWait2 then
    (tcb, .error .unexpectedFin) else
  if finHeader.sequenceNumber ≠ tcb.recvNext then
    (tcb, .error .invalidSequenceNumber) else
  let recvNext := (tcb.recvNext + 1) % mod32
  let ackHeader :=
    { newTCPHeader tcb.localPort tcb.remotePort with
        sequenceNumber := tcb.sendNext
        ackNumber := recvNext
        flags := 0 ||| flagACK
        windowSize := tcb.recvWindow }
  let newState :=
    match tcb.state with
    | .established => SocketState.closeWait
    | .finWait1 => SocketState.closing
    | .finWait2 => SocketState.timeWait
    | s => s
  ({ tcb with recvNext := recvNext, state := newState }, .ok ackHeader)

/-- `FourWayHandshake.HandleFinAck`: allowed in FIN_WAIT_1, CLOSING,
LAST_ACK; requires `AckNumber = SendNext`; sets `SendUnack = AckNumber`;
transitions FIN_WAIT_1→FIN_WAIT_2, CLOSING→TIME_WAIT, LAST_ACK→CLOSED. -/
def handleFinAck (tcb : TCB) (ackHeader : TCPHeader) :
    TCB × Except TCPError Unit :=
  if tcb.state ≠ .finWait1 ∧ tcb.state ≠ .closing ∧
      tcb.state ≠ .lastAck then
    (tcb, .error .unexpectedAck) else
  if ackHeader.ackNumber ≠ tcb.sendNext then
    (tcb, .error .invalidAckNumber) else
  let newState :=
    match tcb.state with
    | .finWait1 => SocketState.finWait2
    | .closing => SocketState.timeWait
    | .lastAck => SocketState.closed
    | s => s
  ({ tcb with sendUnack := ackHeader.ackNumber, state := newState },
   .ok ())

/-- `FourWayHandshake.CloseFromCloseWait`: requires CLOSE_WAIT; builds a
FIN+ACK header; advances `SendNext` by one; moves to LAST_ACK. The FIN
is not enqueued for retransmission. -/
def closeFromCloseWait (tcb : TCB) : TCB × Except TCPError TCPHeader :=
  if tcb.state ≠ .closeWait then (tcb, .error .invalidState) else
  let finHeader :=
    { newTCPHeader tcb.localPort tcb.remotePort with
        sequenceNumber := tcb.sendNext
        ackNumber := tcb.recvNext
        flags := 0 ||| (flagFIN ||| flagACK)
        windowSize := tcb.recvWindow }
  ({ tcb with
      sendNext := (tcb.sendNext + 1) % mod32
      state := .lastAck },
   .ok finHeader)

/-- `FourWayHandshake.IsConnectionClosed`. -/
def isConnectionClosed (tcb : TCB) : Bool :=
  tcb.state = .closed

/-- `FourWayHandshake.CanSendData`. -/
def canSendData (tcb : TCB) : Bool :=
  tcb.state = .established

/-- `FourWayHandshake.CanReceiveData`. -/
def canReceiveData (tcb : TCB) : Bool :=
  tcb.state = .established || tcb.state = .closeWait

/-- C1 counterexample: a header whose flag set is exactly {SYN} (built
with `SetFlag`) still satisfies `HasFlag(SYN|ACK)`, because `HasFlag`
tests `Flags & mask != 0`; so the test does not succeed "iff every bit
of the mask is set". -/
theorem c1_counterexample :
    ¬ ((hasFlag (setFlag (newTCPHeader 8080 80) flagSYN)
          (flagSYN ||| flagACK) = true) ↔
        (flagSYN ||| flagACK) &&&
          (setFlag (newTCPHeader 8080 80) flagSYN).flags =
          flagSYN ||| flagACK) := by
  decide

/-- C1 (amended): for every flag set F (any combination of the six
defined bits) installed with `SetFlag` on a fresh header, and every
nonzero mask S over those bits, `HasFlag` succeeds iff at least one bit
of S is set in F (nonempty intersection), not iff every bit of S is set. -/
theorem c1_amended (F S : Fin 64) (hS : S.val ≠ 0) :
    hasFlag (setFlag (newTCPHeader 8080 80) F.val) S.val = true ↔
      F.val &&& S.val ≠ 0 := by
  revert hS
  revert F S
  decide

/-- Witness for C1 (amended), at F = SYN, S = SYN|ACK. -/
theorem c1_amended_witness :
    hasFlag (setFlag (newTCPHeader 8080 80) 2) 18 = true ↔
      (2 : Nat) &&& 18 ≠ 0 :=
  c1_amended ⟨2, by decide⟩ ⟨18, by decide⟩ (by decide)

deriving instance DecidableEq for Except

/-- Extract the header carried by a successful result. -/
def okHeader (r : Except TCPError TCPHeader) : TCPHeader :=
  match r with
  | .ok h => h
  | .error _ => newTCPHeader 0 0

/-- C2: from any client CCB in CLOSED and any server CCB in LISTEN, the
four-step handshake (`StartClient`, `HandleSyn`, `HandleSynAck`,
`HandleAck`) succeeds, both CCBs end ESTABLISHED, the SYN-ACK's ack
number is the client SYN's sequence number plus one, and the final
ACK's ack number is the SYN-ACK's sequence number plus one (32-bit
increments). -/
theorem c2_handshake (client server : TCB) (isnC isnS : Nat) (nowC : Int)
    (hc : client.state = .closed) (hs : server.state = .listen) :
    let r1 := startClient client isnC nowC
    let syn := okHeader r1.2
    let r2 := handleSyn server syn isnS
    let synAck := okHeader r2.2
    let r3 := handleSynAck r1.1 synAck
    let ack := okHeader r3.2
    let r4 := handleAck r2.1 ack
    r1.2 = .ok syn ∧ r2.2 = .ok synAck ∧ r3.2 = .ok ack ∧ r4.2 = .ok () ∧
      r3.1.state = .established ∧ r4.1.state = .established ∧
      synAck.ackNumber = (syn.sequenceNumber + 1) % mod32 ∧
      ack.ackNumber = (synAck.sequenceNumber + 1) % mod32 := by
  simp [startClient, handleSyn, handleSynAck, handleAck, okHeader, hc, hs]

/-- Witness for C2 at concrete CCBs and ISNs. -/
theorem c2_handshake_witness :
    let client := newTCB 8080 9090
    let server := { newTCB 9090 8080 with state := SocketState.listen }
    let r1 := startClient client 100 0
    let syn := okHeader r1.2
    let r2 := handleSyn server syn 200
    let synAck := okHeader r2.2
    let r3 := handleSynAck r1.1 synAck
    let ack := okHeader r3.2
    let r4 := handleAck r2.1 ack
    r1.2 = .ok syn ∧ r2.2 = .ok synAck ∧ r3.2 = .ok ack ∧ r4.2 = .ok () ∧
      r3.1.state = .established ∧ r4.1.state = .established ∧
      synAck.ackNumber = (syn.sequenceNumber + 1) % mod32 ∧
      ack.ackNumber = (synAck.sequenceNumber + 1) % mod32 :=
  c2_handshake (newTCB 8080 9090)
    { newTCB 9090 8080 with state := SocketState.listen } 100 200 0 rfl rfl

/-- C3: every handshake, data-transfer and close operation that returns
a failure leaves the CCB completely unchanged (full record equality, so
state, sequence counters, both buffers and the retransmission queue are
all as they were). -/
theorem c3_error_frame (tcb : TCB) (hdr : TCPHeader) (data : List Nat)
    (isn : Nat) (now : Int) (e : TCPError) :
    ((startClient tcb isn now).2 = .error e →
      (startClient tcb isn now).1 = tcb) ∧
    ((handleSyn tcb hdr isn).2 = .error e →
      (handleSyn tcb hdr isn).1 = tcb) ∧
    ((handleSynAck tcb hdr).2 = .error e →
      (handleSynAck tcb hdr).1 = tcb) ∧
    ((handleAck tcb hdr).2 = .error e → (handleAck tcb hdr).1 = tcb) ∧
    ((send tcb data now).2 = .error e → (send tcb data now).1 = tcb) ∧
    ((receive tcb hdr data).2 = .error e →
      (receive tcb hdr data).1 = tcb) ∧
    ((receiveAck tcb hdr).2 = .error e → (receiveAck tcb hdr).1 = tcb) ∧
    ((close tcb now).2 = .error e → (close tcb now).1 = tcb) ∧
    ((handleFin tcb hdr).2 = .error e → (handleFin tcb hdr).1 = tcb) ∧
    ((handleFinAck tcb hdr).2 = .error e →
      (handleFinAck tcb hdr).1 = tcb) ∧
    ((closeFromCloseWait tcb).2 = .error e →
      (closeFromCloseWait tcb).1 = tcb) := by
  refine ⟨?_, ?_, ?_, ?_, ?_, ?_, ?_, ?_, ?_, ?_, ?_⟩
  · intro h; simp only [startClient] at h ⊢; split_ifs at h ⊢ <;> simp_all
  · intro h; simp only [handleSyn] at h ⊢; split_ifs at h ⊢ <;> simp_all
  · intro h; simp only [handleSynAck] at h ⊢; split_ifs at h ⊢ <;> simp_all
  · intro h; simp only [handleAck] at h ⊢; split_ifs at h ⊢ <;> simp_all
  · intro h; simp only [send] at h ⊢; split_ifs at h ⊢ <;> simp_all
  · intro h; simp only [receive] at h ⊢; split_ifs at h ⊢ <;> simp_all
  · intro h; simp only [receiveAck] at h ⊢; split_ifs at h ⊢ <;> simp_all
  · intro h; simp only [close] at h ⊢; split_ifs at h ⊢ <;> simp_all
  · intro h; simp only [handleFin] at h ⊢; split_ifs at h ⊢ <;> simp_all
  · intro h; simp only [handleFinAck] at h ⊢; split_ifs at h ⊢ <;> simp_all
  · intro h; simp only [closeFromCloseWait] at h ⊢
    split_ifs at h ⊢ <;> simp_all

/-- Witness for C3: `Send` on a CLOSED CCB fails and returns the CCB
unchanged. -/
theorem c3_error_frame_witness :
    (send (newTCB 1 2) [7] 0).1 = newTCB 1 2 :=
  (c3_error_frame (newTCB 1 2) (newTCPHeader 0 0) [7] 5 0
    .invalidState).2.2.2.2.1 (by rfl)

/-- Extract the ACK header carried by a successful `receive` result. -/
def okAck (r : Except TCPError (List Nat × TCPHeader)) : TCPHeader :=
  match r with
  | .ok p => p.2
  | .error _ => newTCPHeader 0 0

/-- C4 counterexample: the claim quantifies over every pair of
ESTABLISHED CCBs with sender `sendNext = 1000`, `recvNext = 2000` and
receiver `recvNext = 1000`, but a sender whose `sendUnack` is 2000
(allowed by that quantification) makes the final `ReceiveAck` step fail
with InvalidAckNumber instead of advancing `sendUnack` to 1011. -/
theorem c4_counterexample :
    let sender : TCB :=
      { newTCB 1 2 with
          state := SocketState.established
          sendNext := 1000
          sendUnack := 2000
          recvNext := 2000 }
    let receiver : TCB :=
      { newTCB 2 1 with state := SocketState.established, recvNext := 1000 }
    let data : List Nat := List.replicate 11 0
    let r1 := send sender data 0
    let hdr := okHeader r1.2
    let r2 := receive receiver hdr data
    let ack := okAck r2.2
    ¬ (r1.2 = .ok hdr ∧ hdr.sequenceNumber = 1000 ∧ hdr.ackNumber = 2000 ∧
        hasFlag hdr flagACK = true ∧ hasFlag hdr flagPSH = true ∧
        r1.1.sendNext = 1011 ∧ r2.2 = .ok (data, ack) ∧
        ack.ackNumber = 1011 ∧ r2.1.recvNext = 1011 ∧
        (receiveAck r1.1 ack).2 = .ok () ∧
        (receiveAck r1.1 ack).1.sendUnack = 1011) := by
  decide

/-- C4 (amended): the data-path round trip behaves as claimed provided
additionally that the sender's `sendUnack` does not exceed 1011 (as the
`sendUnack ≤ sendNext` invariant guarantees for reachable senders):
sending 11 bytes yields a segment with seq 1000, ack 2000, flags ACK
and PSH, and advances `sendNext` to 1011; the receiver consuming it
returns an ACK with ack number 1011 and advances `recvNext` to 1011;
feeding that ACK to `ReceiveAck` advances the sender's `sendUnack`
to 1011. -/
theorem c4_amended (sender receiver : TCB) (data : List Nat) (now : Int)
    (hss : sender.state = .established) (hsn : sender.sendNext = 1000)
    (hsr : sender.recvNext = 2000) (hsu : sender.sendUnack ≤ 1011)
    (hrs : receiver.state = .established) (hrr : receiver.recvNext = 1000)
    (hd : data.length = 11) :
    let r1 := send sender data now
    let hdr := okHeader r1.2
    let r2 := receive receiver hdr data
    let ack := okAck r2.2
    r1.2 = .ok hdr ∧ hdr.sequenceNumber = 1000 ∧ hdr.ackNumber = 2000 ∧
      hasFlag hdr flagACK = true ∧ hasFlag hdr flagPSH = true ∧
      r1.1.sendNext = 1011 ∧ r2.2 = .ok (data, ack) ∧
      ack.ackNumber = 1011 ∧ r2.1.recvNext = 1011 ∧
      (receiveAck r1.1 ack).2 = .ok () ∧
      (receiveAck r1.1 ack).1.sendUnack = 1011 := by
  have hd32 : data.length % mod32 = 11 := by rw [hd]; rfl
  simp [send, receive, receiveAck, okHeader, okAck, hasFlag, hss, hsn,
    hsr, hrs, hrr, hd, hd32, mod32, Nat.not_lt.mpr hsu]
  decide

/-- Witness for C4 (amended) at concrete CCBs and data. -/
theorem c4_amended_witness :
    let sender : TCB :=
      { newTCB 1 2 with
          state := SocketState.established
          sendNext := 1000
          sendUnack := 900
          recvNext := 2000 }
    let receiver : TCB :=
      { newTCB 2 1 with state := SocketState.established, recvNext := 1000 }
    let data : List Nat := List.replicate 11 3
    let r1 := send sender data 0
    let hdr := okHeader r1.2
    let r2 := receive receiver hdr data
    let ack := okAck r2.2
    r1.2 = .ok hdr ∧ hdr.sequenceNumber = 1000 ∧ hdr.ackNumber = 2000 ∧
      hasFlag hdr flagACK = true ∧ hasFlag hdr flagPSH = true ∧
      r1.1.sendNext = 1011 ∧ r2.2 = .ok (data, ack) ∧
      ack.ackNumber = 1011 ∧ r2.1.recvNext = 1011 ∧
      (receiveAck r1.1 ack).2 = .ok () ∧
      (receiveAck r1.1 ack).1.sendUnack = 1011 :=
  c4_amended _ _ (List.replicate 11 3) 0 rfl rfl rfl (by decide) rfl rfl
    (by decide)

/-- The queue pruning loop keeps exactly the entries whose span end lies
strictly beyond the acknowledged number. -/
theorem rqRemove_eq_filter (ack : Nat) (q : List RetransmissionEntry) :
    rqRemove ack q = q.filter (fun e => decide (ack < seqEnd e)) := by
  induction q with
  | nil => rfl
  | cons e rest ih =>
    by_cases h : ack < seqEnd e <;> simp [rqRemove, h, ih]

/-- An entry's span end is its sequence number plus its data length,
plus one more when the header carries SYN or FIN, in 32-bit
arithmetic. -/
theorem seqEnd_eq (e : RetransmissionEntry) :
    seqEnd e = (e.header.sequenceNumber + e.data.length % mod32 +
      (if hasFlag e.header flagSYN = true ∨ hasFlag e.header flagFIN = true
        then 1 else 0)) % mod32 := by
  simp only [seqEnd, Bool.or_eq_true]
  split_ifs with h
  · exact Nat.mod_add_mod _ _ _
  · simp

/-- C5: on an ESTABLISHED CCB, `ReceiveAck` fails with InvalidAckNumber
exactly when the incoming ack number lies outside the inclusive
interval from `sendUnack` to `sendNext`; otherwise it sets `sendUnack`
to the ack number and removes from the retransmission queue exactly
the entries whose full sequence span (data length, plus one for a SYN
or FIN flag) is covered by the ack number, keeping the rest. -/
theorem c5_receive_ack (tcb : TCB) (hdr : TCPHeader)
    (hst : tcb.state = .established) :
    ((receiveAck tcb hdr).2 = .error .invalidAckNumber ↔
      (hdr.ackNumber < tcb.sendUnack ∨ tcb.sendNext < hdr.ackNumber)) ∧
    (tcb.sendUnack ≤ hdr.ackNumber → hdr.ackNumber ≤ tcb.sendNext →
      receiveAck tcb hdr =
        ({ tcb with
            sendUnack := hdr.ackNumber
            retransmissionQueue := tcb.retransmissionQueue.filter
              (fun e => decide (hdr.ackNumber <
                (e.header.sequenceNumber + e.data.length % mod32 +
                  (if hasFlag e.header flagSYN = true ∨
                      hasFlag e.header flagFIN = true then 1 else 0)) %
                  mod32)) },
         .ok ())) := by
  constructor
  · simp only [receiveAck, hst]
    split_ifs with h <;> simp_all
  · intro h1 h2
    simp [receiveAck, hst, Nat.not_lt.mpr h1, Nat.not_lt.mpr h2,
      rqRemove_eq_filter, seqEnd_eq]

/-- Witness for C5: a concrete ESTABLISHED CCB with two outstanding
entries; acknowledging byte 1000 retires the first (10 data bytes
ending at 1000) and keeps the second (starting at 1000). -/
theorem c5_receive_ack_witness :
    receiveAck
        { newTCB 1 2 with
            state := SocketState.established
            sendUnack := 990
            sendNext := 1003
            retransmissionQueue :=
              [{ header := { newTCPHeader 1 2 with sequenceNumber := 990 }
                 data := List.replicate 10 0
                 sentTime := 0
                 attempts := 1 },
               { header := { newTCPHeader 1 2 with sequenceNumber := 1000 }
                 data := [1, 2, 3]
                 sentTime := 0
                 attempts := 1 }] }
        { newTCPHeader 2 1 with ackNumber := 1000 } =
      ({ newTCB 1 2 with
          state := SocketState.established
          sendUnack := 1000
          sendNext := 1003
          retransmissionQueue :=
            ([{ header := { newTCPHeader 1 2 with sequenceNumber := 990 }
                data := List.replicate 10 0
                sentTime := 0
                attempts := 1 },
              { header := { newTCPHeader 1 2 with sequenceNumber := 1000 }
                data := [1, 2, 3]
                sentTime := 0
                attempts := 1 }] :
              List RetransmissionEntry).filter
              (fun e => decide ((1000 : Nat) <
                (e.header.sequenceNumber + e.data.length % mod32 +
                  (if hasFlag e.header flagSYN = true ∨
                      hasFlag e.header flagFIN = true then 1 else 0)) %
                  mod32)) },
       .ok ()) :=
  (c5_receive_ack _ _ rfl).2 (by decide) (by decide)

/-- Result list of the timeout scan: the timed-out, below-limit entries,
each snapshot taken after its in-place update. -/
theorem rqGetTimeoutEntries_fst (now timeout maxAttempts : Int)
    (q : List RetransmissionEntry) :
    (rqGetTimeoutEntries now timeout maxAttempts q).1 =
      (q.filter (fun e =>
        decide (now - e.sentTime > timeout ∧
          e.attempts < maxAttempts))).map (touchEntry now) := by
  induction q with
  | nil => rfl
  | cons e rest ih =>
    by_cases h : now - e.sentTime > timeout ∧ e.attempts < maxAttempts <;>
      simp [rqGetTimeoutEntries, h, ih]

/-- Queue left behind by the timeout scan: each timed-out, below-limit
entry is updated in place, every other entry is untouched. -/
theorem rqGetTimeoutEntries_snd (now timeout maxAttempts : Int)
    (q : List RetransmissionEntry) :
    (rqGetTimeoutEntries now timeout maxAttempts q).2 =
      q.map (fun e =>
        if now - e.sentTime > timeout ∧ e.attempts < maxAttempts then
          touchEntry now e
        else e) := by
  induction q with
  | nil => rfl
  | cons e rest ih =>
    by_cases h : now - e.sentTime > timeout ∧ e.attempts < maxAttempts <;>
      simp [rqGetTimeoutEntries, h, ih]

/-- C6: `GetTimeoutEntries` returns exactly the entries whose age
exceeds the timeout and whose attempt count is below the limit, with
sent time reset to now and attempts incremented; in the queue those
entries are updated the same way and every other entry is untouched;
an entry whose attempts have reached the limit stays in the queue
unchanged, and every returned snapshot stems from an entry that was
below the limit. -/
theorem c6_timeout_entries (now timeout maxAttempts : Int)
    (q : List RetransmissionEntry) :
    let r := rqGetTimeoutEntries now timeout maxAttempts q
    r.1 = (q.filter (fun e =>
        decide (now - e.sentTime > timeout ∧
          e.attempts < maxAttempts))).map (touchEntry now) ∧
    r.2 = q.map (fun e =>
        if now - e.sentTime > timeout ∧ e.attempts < maxAttempts then
          touchEntry now e
        else e) ∧
    (∀ e ∈ q, maxAttempts ≤ e.attempts → e ∈ r.2) ∧
    (∀ x ∈ r.1, x.sentTime = now ∧ x.attempts ≤ maxAttempts ∧
      ∃ e ∈ q, e.attempts < maxAttempts ∧ now - e.sentTime > timeout ∧
        x = touchEntry now e) := by
  refine ⟨rqGetTimeoutEntries_fst now timeout maxAttempts q,
    rqGetTimeoutEntries_snd now timeout maxAttempts q, ?_, ?_⟩
  · intro e he hm
    rw [rqGetTimeoutEntries_snd]
    refine List.mem_map.mpr ⟨e, he, ?_⟩
    simp [Int.not_lt.mpr hm]
  · intro x hx
    rw [rqGetTimeoutEntries_fst] at hx
    obtain ⟨e, he, rfl⟩ := List.mem_map.mp hx
    obtain ⟨heq, hcond⟩ := List.mem_filter.mp he
    rw [decide_eq_true_iff] at hcond
    exact ⟨rfl, Int.add_one_le_iff.mpr hcond.2,
      e, heq, hcond.2, hcond.1, rfl⟩

/-- Witness for C6 on a concrete two-entry queue: one entry timed out
with attempts below the limit, one already at the limit. -/
theorem c6_timeout_entries_witness :
    (rqGetTimeoutEntries 100 10 3
        [{ header := newTCPHeader 1 2, data := [], sentTime := 0
           attempts := 1 },
         { header := newTCPHeader 1 2, data := [], sentTime := 0
           attempts := 3 }]).1 =
      (([{ header := newTCPHeader 1 2, data := [], sentTime := 0
           attempts := 1 },
         { header := newTCPHeader 1 2, data := [], sentTime := 0
           attempts := 3 }] :
          List RetransmissionEntry).filter (fun e =>
        decide ((100 : Int) - e.sentTime > 10 ∧
          e.attempts < 3))).map (touchEntry 100) :=
  (c6_timeout_entries 100 10 3 _).1

/-- C7: `HandleFin` succeeds exactly when the CCB is in ESTABLISHED,
FIN_WAIT_1 or FIN_WAIT_2 and the incoming sequence number equals
`recvNext`; outside those states it fails with UnexpectedFin, in them
with a wrong sequence number it fails with InvalidSequenceNumber; on
success it advances `recvNext` by one, returns an ACK with sequence
number `sendNext` and ack number the new `recvNext`, and transitions
ESTABLISHED to CLOSE_WAIT, FIN_WAIT_1 to CLOSING and FIN_WAIT_2 to
TIME_WAIT. -/
theorem c7_handle_fin (tcb : TCB) (hdr : TCPHeader) :
    ((∃ h, (handleFin tcb hdr).2 = .ok h) ↔
      ((tcb.state = .established ∨ tcb.state = .finWait1 ∨
        tcb.state = .finWait2) ∧ hdr.sequenceNumber = tcb.recvNext)) ∧
    (¬(tcb.state = .established ∨ tcb.state = .finWait1 ∨
        tcb.state = .finWait2) →
      handleFin tcb hdr = (tcb, .error .unexpectedFin)) ∧
    ((tcb.state = .established ∨ tcb.state = .finWait1 ∨
        tcb.state = .finWait2) →
      hdr.sequenceNumber ≠ tcb.recvNext →
      handleFin tcb hdr = (tcb, .error .invalidSequenceNumber)) ∧
    ((tcb.state = .established ∨ tcb.state = .finWait1 ∨
        tcb.state = .finWait2) →
      hdr.sequenceNumber = tcb.recvNext →
      (handleFin tcb hdr).1.recvNext = (tcb.recvNext + 1) % mod32 ∧
      (handleFin tcb hdr).2 = .ok
        { newTCPHeader tcb.localPort tcb.remotePort with
            sequenceNumber := tcb.sendNext
            ackNumber := (tcb.recvNext + 1) % mod32
            flags := 0 ||| flagACK
            windowSize := tcb.recvWindow } ∧
      (tcb.state = .established →
        (handleFin tcb hdr).1.state = .closeWait) ∧
      (tcb.state = .finWait1 → (handleFin tcb hdr).1.state = .closing) ∧
      (tcb.state = .finWait2 → (handleFin tcb hdr).1.state = .timeWait)) := by
  by_cases hv : tcb.state = .established ∨ tcb.state = .finWait1 ∨
      tcb.state = .finWait2
  · by_cases hs : hdr.sequenceNumber = tcb.recvNext
    · have hres : handleFin tcb hdr =
          ({ tcb with
              recvNext := (tcb.recvNext + 1) % mod32
              state := match tcb.state with
                | .established => SocketState.closeWait
                | .finWait1 => SocketState.closing
                | .finWait2 => SocketState.timeWait
                | s => s },
           .ok { newTCPHeader tcb.localPort tcb.remotePort with
                  sequenceNumber := tcb.sendNext
                  ackNumber := (tcb.recvNext + 1) % mod32
                  flags := 0 ||| flagACK
                  windowSize := tcb.recvWindow }) := by
        simp only [handleFin]
        rw [if_neg (by tauto), if_neg (by simp [hs])]
      refine ⟨by simp [hres, hv, hs], by tauto, by tauto, fun _ _ => ?_⟩
      refine ⟨by simp [hres], by simp [hres], ?_, ?_, ?_⟩ <;>
        · intro h; simp [hres, h]
    · have hres : handleFin tcb hdr = (tcb, .error .invalidSequenceNumber) := by
        simp only [handleFin]
        rw [if_neg (by tauto), if_pos hs]
      exact ⟨by simp [hres, hs], by tauto, fun _ _ => hres,
        fun _ h => absurd h hs⟩
  · have hres : handleFin tcb hdr = (tcb, .error .unexpectedFin) := by
      simp only [handleFin]
      rw [if_pos (by tauto)]
    exact ⟨by simp [hres, hv], fun _ => hres, fun h => absurd h hv,
      fun h => absurd h hv⟩

/-- Witness for C7: a FIN at the expected sequence number on a concrete
ESTABLISHED CCB. -/
theorem c7_handle_fin_witness :
    let tcb : TCB :=
      { newTCB 1 2 with state := SocketState.established, recvNext := 500 }
    let hdr := { newTCPHeader 2 1 with sequenceNumber := 500 }
    (handleFin tcb hdr).1.recvNext = (500 + 1) % mod32 ∧
      (handleFin tcb hdr).2 = .ok
        { newTCPHeader 1 2 with
            sequenceNumber := 0
            ackNumber := (500 + 1) % mod32
            flags := 0 ||| flagACK
            windowSize := 65535 } ∧
      ((handleFin tcb hdr).1.state = SocketState.closeWait) := by
  have h := (c7_handle_fin
    { newTCB 1 2 with state := SocketState.established, recvNext := 500 }
    { newTCPHeader 2 1 with sequenceNumber := 500 }).2.2.2
    (Or.inl rfl) rfl
  exact ⟨h.1, h.2.1, h.2.2.1 rfl⟩

/-- Ideal (unbounded) counterpart of an acknowledged sequence number:
the smallest natural at least `u - u % mod32` in the residue class of
`ack`. -/
def liftAck (u ack : Nat) : Nat :=
  u - u % mod32 + ack

/-- States reachable from a freshly created CCB by successful
handshake, data-transfer and close operations, indexed by ideal
unbounded counterparts `u`, `n` of the wrapping 32-bit counters
`sendUnack`, `sendNext`. Each constructor pairs one operation of the
code with the ideal bookkeeping forced by it; failing operations leave
the CCB unchanged (theorem `c3_error_frame`) and need no constructor. -/
inductive Reach : TCB → Nat → Nat → Prop where
  | init (lp rp : Nat) : Reach (newTCB lp rp) 0 0
  | stepStartClient (tcb : TCB) (u n isn : Nat) (now : Int) (tcb2 : TCB)
      (hdr : TCPHeader) : Reach tcb u n → isn < mod32 →
      startClient tcb isn now = (tcb2, .ok hdr) →
      Reach tcb2 isn (isn + 1)
  | stepHandleSyn (tcb : TCB) (u n : Nat) (syn : TCPHeader) (isn : Nat)
      (tcb2 : TCB) (hdr : TCPHeader) : Reach tcb u n → isn < mod32 →
      handleSyn tcb syn isn = (tcb2, .ok hdr) →
      Reach tcb2 isn (isn + 1)
  | stepHandleSynAck (tcb : TCB) (u n : Nat) (h : TCPHeader) (tcb2 : TCB)
      (hdr : TCPHeader) : Reach tcb u n →
      handleSynAck tcb h = (tcb2, .ok hdr) → Reach tcb2 u n
  | stepHandleAck (tcb : TCB) (u n : Nat) (h : TCPHeader) (tcb2 : TCB) :
      Reach tcb u n → handleAck tcb h = (tcb2, .ok ()) → Reach tcb2 u n
  | stepSend (tcb : TCB) (u n : Nat) (data : List Nat) (now : Int)
      (tcb2 : TCB) (hdr : TCPHeader) : Reach tcb u n →
      send tcb data now = (tcb2, .ok hdr) →
      Reach tcb2 u (n + data.length % mod32)
  | stepReceive (tcb : TCB) (u n : Nat) (h : TCPHeader) (data : List Nat)
      (tcb2 : TCB) (out : List Nat × TCPHeader) : Reach tcb u n →
      receive tcb h data = (tcb2, .ok out) → Reach tcb2 u n
  | stepReceiveAck (tcb : TCB) (u n : Nat) (h : TCPHeader) (tcb2 : TCB) :
      Reach tcb u n → receiveAck tcb h = (tcb2, .ok ()) →
      Reach tcb2 (liftAck u h.ackNumber) n
  | stepClose (tcb : TCB) (u n : Nat) (now : Int) (tcb2 : TCB)
      (hdr : TCPHeader) : Reach tcb u n →
      close tcb now = (tcb2, .ok hdr) → Reach tcb2 u (n + 1)
  | stepHandleFin (tcb : TCB) (u n : Nat) (h : TCPHeader) (tcb2 : TCB)
      (hdr : TCPHeader) : Reach tcb u n →
      handleFin tcb h = (tcb2, .ok hdr) → Reach tcb2 u n
  | stepHandleFinAck (tcb : TCB) (u n : Nat) (h : TCPHeader) (tcb2 : TCB) :
      Reach tcb u n → handleFinAck tcb h = (tcb2, .ok ()) →
      Reach tcb2 n n
  | stepCloseFromCloseWait (tcb : TCB) (u n : Nat) (tcb2 : TCB)
      (hdr : TCPHeader) : Reach tcb u n →
      closeFromCloseWait tcb = (tcb2, .ok hdr) → Reach tcb2 u (n + 1)

/-- C8: the invariant "sendUnack ≤ sendNext modulo 2^32 wraparound",
formalized as: along every sequence of operations from a freshly
created CCB there are ideal unbounded counters `u ≤ n` whose mod-2^32
projections are exactly the stored `sendUnack` and `sendNext`; the
`Reach` constructors force those counters step by step. -/
theorem c8_send_unack_le_send_next (tcb : TCB) (u n : Nat)
    (h : Reach tcb u n) :
    u ≤ n ∧ tcb.sendUnack = u % mod32 ∧ tcb.sendNext = n % mod32 := by
  induction h with
  | init lp rp => exact ⟨Nat.le_refl 0, rfl, rfl⟩
  | stepStartClient tcb u n isn now tcb2 hdr hr hisn heq ih =>
    simp only [startClient] at heq
    split_ifs at heq with h1
    · simp [Prod.mk.injEq] at heq
    · rw [Prod.mk.injEq] at heq
      obtain ⟨h2, -⟩ := heq
      subst h2
      exact ⟨Nat.le_succ isn, (Nat.mod_eq_of_lt hisn).symm, rfl⟩
  | stepHandleSyn tcb u n syn isn tcb2 hdr hr hisn heq ih =>
    simp only [handleSyn] at heq
    split_ifs at heq with h1
    · simp [Prod.mk.injEq] at heq
    · rw [Prod.mk.injEq] at heq
      obtain ⟨h2, -⟩ := heq
      subst h2
      exact ⟨Nat.le_succ isn, (Nat.mod_eq_of_lt hisn).symm, rfl⟩
  | stepHandleSynAck tcb u n h tcb2 hdr hr heq ih =>
    simp only [handleSynAck] at heq
    split_ifs at heq with h1 h2
    · simp [Prod.mk.injEq] at heq
    · simp [Prod.mk.injEq] at heq
    · rw [Prod.mk.injEq] at heq
      obtain ⟨h3, -⟩ := heq
      subst h3
      exact ⟨ih.1, ih.2.1, ih.2.2⟩
  | stepHandleAck tcb u n h tcb2 hr heq ih =>
    simp only [handleAck] at heq
    split_ifs at heq with h1 h2 h3
    · simp [Prod.mk.injEq] at heq
    · simp [Prod.mk.injEq] at heq
    · simp [Prod.mk.injEq] at heq
    · rw [Prod.mk.injEq] at heq
      obtain ⟨h4, -⟩ := heq
      subst h4
      exact ⟨ih.1, ih.2.1, ih.2.2⟩
  | stepSend tcb u n data now tcb2 hdr hr heq ih =>
    simp only [send] at heq
    split_ifs at heq with h1 h2
    · simp [Prod.mk.injEq] at heq
    · simp [Prod.mk.injEq] at heq
    · rw [Prod.mk.injEq] at heq
      obtain ⟨h3, -⟩ := heq
      subst h3
      refine ⟨Nat.le_trans ih.1 (Nat.le_add_right n _), ih.2.1, ?_⟩
      simp only [ih.2.2]
      exact Nat.mod_add_mod n mod32 (data.length % mod32)
  | stepReceive tcb u n h data tcb2 out hr heq ih =>
    simp only [receive] at heq
    split_ifs at heq with h1 h2
    · simp [Prod.mk.injEq] at heq
    · simp [Prod.mk.injEq] at heq
    · rw [Prod.mk.injEq] at heq
      obtain ⟨h3, -⟩ := heq
      subst h3
      exact ⟨ih.1, ih.2.1, ih.2.2⟩
  | stepReceiveAck tcb u n h tcb2 hr heq ih =>
    simp only [receiveAck] at heq
    split_ifs at heq with h1 h2
    · simp [Prod.mk.injEq] at heq
    · simp [Prod.mk.injEq] at heq
    · rw [Prod.mk.injEq] at heq
      obtain ⟨h3, -⟩ := heq
      subst h3
      push_neg at h2
      obtain ⟨hlo, hhi⟩ := h2
      rw [ih.2.1] at hlo
      rw [ih.2.2] at hhi
      have hM : 0 < mod32 := by decide
      have hdu : mod32 * (u / mod32) + u % mod32 = u := Nat.div_add_mod u mod32
      have hdn : mod32 * (n / mod32) + n % mod32 = n := Nat.div_add_mod n mod32
      have hdiv : mod32 * (u / mod32) ≤ mod32 * (n / mod32) :=
        Nat.mul_le_mul_left mod32 (Nat.div_le_div_right ih.1)
      have hackM : h.ackNumber < mod32 :=
        Nat.lt_of_le_of_lt hhi (Nat.mod_lt n hM)
      refine ⟨?_, ?_, ih.2.2⟩
      · unfold liftAck
        omega
      · unfold liftAck
        have hrw : u - u % mod32 = mod32 * (u / mod32) := by omega
        rw [hrw, Nat.mul_add_mod, Nat.mod_eq_of_lt hackM]
  | stepClose tcb u n now tcb2 hdr hr heq ih =>
    simp only [close] at heq
    split_ifs at heq with h1
    · simp [Prod.mk.injEq] at heq
    · rw [Prod.mk.injEq] at heq
      obtain ⟨h2, -⟩ := heq
      subst h2
      refine ⟨Nat.le_succ_of_le ih.1, ih.2.1, ?_⟩
      simp only [ih.2.2]
      exact Nat.mod_add_mod n mod32 1
  | stepHandleFin tcb u n h tcb2 hdr hr heq ih =>
    simp only [handleFin] at heq
    split_ifs at heq with h1 h2
    · simp [Prod.mk.injEq] at heq
    · simp [Prod.mk.injEq] at heq
    · rw [Prod.mk.injEq] at heq
      obtain ⟨h3, -⟩ := heq
      subst h3
      exact ⟨ih.1, ih.2.1, ih.2.2⟩
  | stepHandleFinAck tcb u n h tcb2 hr heq ih =>
    simp only [handleFinAck] at heq
    split_ifs at heq with h1 h2
    · simp [Prod.mk.injEq] at heq
    · simp [Prod.mk.injEq] at heq
    · rw [Prod.mk.injEq] at heq
      obtain ⟨h3, -⟩ := heq
      subst h3
      push_neg at h2
      exact ⟨Nat.le_refl n, by simp [h2, ih.2.2], ih.2.2⟩
  | stepCloseFromCloseWait tcb u n tcb2 hdr hr heq ih =>
    simp only [closeFromCloseWait] at heq
    split_ifs at heq with h1
    · simp [Prod.mk.injEq] at heq
    · rw [Prod.mk.injEq] at heq
      obtain ⟨h2, -⟩ := heq
      subst h2
      refine ⟨Nat.le_succ_of_le ih.1, ih.2.1, ?_⟩
      simp only [ih.2.2]
      exact Nat.mod_add_mod n mod32 1

/-- Witness for C8: the invariant at a concrete reachable state, one
`StartClient` step after creation. -/
theorem c8_send_unack_le_send_next_witness :
    100 ≤ 101 ∧
      (startClient (newTCB 1 2) 100 0).1.sendUnack = 100 % mod32 ∧
      (startClient (newTCB 1 2) 100 0).1.sendNext = 101 % mod32 :=
  c8_send_unack_le_send_next (startClient (newTCB 1 2) 100 0).1 100 101
    (Reach.stepStartClient (newTCB 1 2) 0 0 100 0
      (startClient (newTCB 1 2) 100 0).1
      (okHeader (startClient (newTCB 1 2) 100 0).2)
      (Reach.init 1 2) (by decide) (by rfl))

/-- C9: `HandleSyn` and `CloseFromCloseWait` leave the retransmission
queue unchanged (their SYN-ACK and FIN are never enqueued), while
`StartClient`, `Send` and `Close` each append exactly the segment they
built, with the payload sent, the current instant and one attempt. -/
theorem c9_queue_frame (tcb : TCB) (hdr : TCPHeader) (data : List Nat)
    (isn : Nat) (now : Int) :
    ((handleSyn tcb hdr isn).1.retransmissionQueue =
      tcb.retransmissionQueue) ∧
    ((closeFromCloseWait tcb).1.retransmissionQueue =
      tcb.retransmissionQueue) ∧
    (∀ h, (startClient tcb isn now).2 = .ok h →
      (startClient tcb isn now).1.retransmissionQueue =
        tcb.retransmissionQueue ++
          [{ header := h, data := [], sentTime := now, attempts := 1 }]) ∧
    (∀ h, (send tcb data now).2 = .ok h →
      (send tcb data now).1.retransmissionQueue =
        tcb.retransmissionQueue ++
          [{ header := h, data := data, sentTime := now,
             attempts := 1 }]) ∧
    (∀ h, (close tcb now).2 = .ok h →
      (close tcb now).1.retransmissionQueue =
        tcb.retransmissionQueue ++
          [{ header := h, data := [], sentTime := now,
             attempts := 1 }]) := by
  refine ⟨?_, ?_, ?_, ?_, ?_⟩
  · simp only [handleSyn]
    split_ifs <;> rfl
  · simp only [closeFromCloseWait]
    split_ifs <;> rfl
  · intro h hok
    simp only [startClient] at hok ⊢
    split_ifs at hok ⊢ with h1
    all_goals (have hh := Except.ok.inj hok; subst hh; rfl)
  · intro h hok
    simp only [send] at hok ⊢
    split_ifs at hok ⊢ with h1 h2
    all_goals (have hh := Except.ok.inj hok; subst hh; rfl)
  · intro h hok
    simp only [close] at hok ⊢
    split_ifs at hok ⊢ with h1
    all_goals (have hh := Except.ok.inj hok; subst hh; rfl)

/-- Witness for C9: on a concrete ESTABLISHED CCB, `Send` appends its
segment to the queue. -/
theorem c9_queue_frame_witness :
    (send { newTCB 1 2 with state := SocketState.established } [9] 7).1.retransmissionQueue =
      ({ newTCB 1 2 with
          state := SocketState.established } : TCB).retransmissionQueue ++
        [{ header := okHeader
            (send { newTCB 1 2 with state := SocketState.established } [9] 7).2
           data := [9], sentTime := 7, attempts := 1 }] :=
  (c9_queue_frame { newTCB 1 2 with state := SocketState.established }
    (newTCPHeader 0 0) [9] 0 7).2.2.2.1
    (okHeader (send { newTCB 1 2 with state := SocketState.established }
      [9] 7).2) (by rfl)

/-- C10: in CLOSE_WAIT, `CanReceiveData` answers true, yet every call
to `Receive` fails with InvalidState (it requires ESTABLISHED) and
leaves the CCB unchanged, so the gate admits a state in which the
data-transfer receive operation always fails. -/
theorem c10_close_wait_receive (tcb : TCB)
    (hcw : tcb.state = .closeWait) :
    canReceiveData tcb = true ∧
    ∀ (hdr : TCPHeader) (data : List Nat),
      receive tcb hdr data = (tcb, .error .invalidState) := by
  constructor
  · simp [canReceiveData, hcw]
  · intro hdr data
    simp [receive, hcw]

/-- Witness for C10 at a concrete CLOSE_WAIT CCB and segment. -/
theorem c10_close_wait_receive_witness :
    canReceiveData { newTCB 1 2 with state := SocketState.closeWait } =
        true ∧
      receive { newTCB 1 2 with state := SocketState.closeWait }
          (newTCPHeader 2 1) [5] =
        ({ newTCB 1 2 with state := SocketState.closeWait },
         .error .invalidState) :=
  ⟨(c10_close_wait_receive _ rfl).1,
   (c10_close_wait_receive _ rfl).2 (newTCPHeader 2 1) [5]⟩
